import Mathlib

/-!
Shallow embedding of `src/bot_pyrus_b2b.py` (class `PyrusB2BBot`): a Flask
webhook bot that synchronizes purchase records from Pyrus (source system)
into B2B-Center (target system).

Bytes are modelled as `List Nat` (each element a byte value), 32-bit machine
words as `Nat` reduced mod `2 ^ 32`. Outbound HTTP calls are modelled by a
`World` oracle giving each endpoint's response; exceptions raised by the
Python helpers become `Except String` values.
-/

/-- 32-bit truncation, `n % 2^32`. -/
def w32 (n : Nat) : Nat := n % 4294967296

/-- Left rotation of a 32-bit word by `b` bits. -/
def rotl (b n : Nat) : Nat := (n * 2 ^ b + n / 2 ^ (32 - b)) % 4294967296

/-- Bitwise complement within 32 bits. -/
def notW (n : Nat) : Nat := 4294967295 - n

/-- The SHA-1 round function `f_t`. -/
def sha1F (t b c d : Nat) : Nat :=
  if t < 20 then Nat.lor (Nat.land b c) (Nat.land (notW b) d)
  else if t < 40 then Nat.xor (Nat.xor b c) d
  else if t < 60 then Nat.lor (Nat.lor (Nat.land b c) (Nat.land b d)) (Nat.land c d)
  else Nat.xor (Nat.xor b c) d

/-- The SHA-1 round constant `K_t`. -/
def sha1K (t : Nat) : Nat :=
  if t < 20 then 0x5A827999
  else if t < 40 then 0x6ED9EBA1
  else if t < 60 then 0x8F1BBCDC
  else 0xCA62C1D6

/-- `k` bytes of `n`, big-endian. -/
def beBytes : Nat → Nat → List Nat
  | 0, _ => []
  | k + 1, n => (n / 2 ^ (8 * k)) % 256 :: beBytes k n

/-- Big-endian word from a byte list. -/
def toW (l : List Nat) : Nat := l.foldl (fun a b => a * 256 + b) 0

/-- SHA-1 padding: append `0x80`, zeros to 56 mod 64, and the 64-bit bit length. -/
def sha1Pad (msg : List Nat) : List Nat :=
  msg ++ [128] ++ List.replicate ((119 - msg.length % 64) % 64) 0 ++ beBytes 8 (msg.length * 8)

/-- Split into 64-byte chunks (fuel-indexed for structural recursion). -/
def chunksAux : Nat → List Nat → List (List Nat)
  | 0, _ => []
  | _, [] => []
  | n + 1, l => l.take 64 :: chunksAux n (l.drop 64)

/-- Split a byte list into 64-byte chunks. -/
def chunks64 (l : List Nat) : List (List Nat) := chunksAux l.length l

/-- The 16 big-endian words of a 64-byte chunk. -/
def wordsOfChunk (c : List Nat) : List Nat :=
  (List.range 16).map (fun i => toW ((c.drop (4 * i)).take 4))

/-- Message-schedule extension: `w[i] = rotl 1 (w[i-3] ^ w[i-8] ^ w[i-14] ^ w[i-16])`. -/
def sha1Extend (ws : List Nat) : List Nat :=
  (List.range 64).foldl
    (fun acc _ =>
      let n := acc.length
      acc ++ [rotl 1 (Nat.xor (Nat.xor (acc.getD (n - 3) 0) (acc.getD (n - 8) 0))
        (Nat.xor (acc.getD (n - 14) 0) (acc.getD (n - 16) 0)))])
    ws

/-- The five 32-bit working registers of SHA-1. -/
structure SHA1State where
  a : Nat
  b : Nat
  c : Nat
  d : Nat
  e : Nat
deriving DecidableEq, Repr

/-- One SHA-1 compression round. -/
def sha1Step (t wt : Nat) (s : SHA1State) : SHA1State :=
  ⟨w32 (rotl 5 s.a + sha1F t s.b s.c s.d + s.e + sha1K t + wt),
    s.a, rotl 30 s.b, s.c, s.d⟩

/-- Process one 64-byte chunk. -/
def sha1Chunk (h : SHA1State) (chunk : List Nat) : SHA1State :=
  let ws := sha1Extend (wordsOfChunk chunk)
  let f := (List.range 80).foldl (fun s t => sha1Step t (ws.getD t 0) s) h
  ⟨w32 (h.a + f.a), w32 (h.b + f.b), w32 (h.c + f.c), w32 (h.d + f.d), w32 (h.e + f.e)⟩

/-- SHA-1 digest (20 bytes) of a byte list. -/
def sha1Bytes (msg : List Nat) : List Nat :=
  let h := (chunks64 (sha1Pad msg)).foldl sha1Chunk
    ⟨0x67452301, 0xEFCDAB89, 0x98BADCFE, 0x10325476, 0xC3D2E1F0⟩
  beBytes 4 h.a ++ beBytes 4 h.b ++ beBytes 4 h.c ++ beBytes 4 h.d ++ beBytes 4 h.e

/-- HMAC-SHA1 (RFC 2104) of `msg` keyed by `key`, as `hmac.new(key, msg, sha1)`. -/
def hmacSha1 (key msg : List Nat) : List Nat :=
  let k0 := if 64 < key.length then sha1Bytes key else key
  let kp := k0 ++ List.replicate (64 - k0.length) 0
  let inner := sha1Bytes ((kp.map fun b => Nat.xor b 54) ++ msg)
  sha1Bytes ((kp.map fun b => Nat.xor b 92) ++ inner)

/-- Lowercase hex character of a nibble, as Python `hexdigest` emits. -/
def hexChar (n : Nat) : Char :=
  if n < 10 then Char.ofNat (48 + n) else Char.ofNat (87 + n)

/-- Python `.hexdigest()`: two lowercase hex characters per byte. -/
def hexdigest (bs : List Nat) : String :=
  String.mk (bs.flatMap fun b => [hexChar (b / 16), hexChar (b % 16)])

/-- UTF-8 encoding of a single code point. -/
def utf8EncodeChar (n : Nat) : List Nat :=
  if n < 128 then [n]
  else if n < 2048 then [192 + n / 64, 128 + n % 64]
  else if n < 65536 then [224 + n / 4096, 128 + (n / 64) % 64, 128 + n % 64]
  else [240 + n / 262144, 128 + (n / 4096) % 64, 128 + (n / 64) % 64, 128 + n % 64]

/-- Python `str.encode('utf-8')`: the UTF-8 bytes of a string. -/
def strEncode (s : String) : List Nat :=
  s.toList.flatMap fun c => utf8EncodeChar c.toNat

/-- Python `str.lower()` restricted to the ASCII case mapping (the digest
compared against consists only of lowercase hex characters). -/
def pyLower (s : String) : String :=
  String.mk (s.toList.map fun c =>
    if 65 ≤ c.toNat ∧ c.toNat ≤ 90 then Char.ofNat (c.toNat + 32) else c)

/-- `PyrusB2BBot._is_signature_correct(message, secret, signature)`:
encodes the secret, computes the HMAC-SHA1 hex digest of the message and
compares it (`hmac.compare_digest`, a constant-time string equality) against
`signature.lower()`. The Python `isinstance(message, str)` branch encodes a
string message to UTF-8 first; here the message is already bytes. -/
def is_signature_correct (message : List Nat) (secret : String) (signature : String) : Bool :=
  let secretB := strEncode secret
  let digest := hexdigest (hmacSha1 secretB message)
  digest == pyLower signature

/-- Modelled from the spec: `verify_webhook` is called by both routes at
lines 116 and 157 of `bot_pyrus_b2b.py` but is not defined anywhere in the
source file. §4.1 gives its contract: `verify(rawBody, providedSignature,
sharedSecret) -> bool`, HMAC-SHA1 of the raw body under the shared secret,
with absence of the signature header treated as verification failure (never
an error). It is modelled as delegating to `is_signature_correct` with the
configured shared secret, returning `false` when the header is absent. -/
def verify_webhook (secret : String) (body : List Nat) (signature : Option String) : Bool :=
  match signature with
  | none => false
  | some g => is_signature_correct body secret g

/-- A Pyrus form field: `{id, value, quantity?, price?}` (§6). -/
structure PyrusField where
  id : String
  value : String
  quantity : Option Int
  price : Option Int
deriving DecidableEq, Repr

/-- A Pyrus attachment: `{name, url, type?}` (§6). -/
structure Attachment where
  name : String
  url : String
  type : Option String
deriving DecidableEq, Repr

/-- The Pyrus task JSON read by the bot: `subject`, optional `b2b_id`,
`fields`, `attachments` (absent modelled as `[]`, matching
`pyrus_purchase.get("attachments", [])`), optional `deadline`. -/
structure PyrusTask where
  subject : String
  b2b_id : Option String
  fields : List PyrusField
  attachments : List Attachment
  deadline : Option String
deriving DecidableEq, Repr

/-- A lot dict built by `extract_lots`. -/
structure Lot where
  name : String
  quantity : Option Int
  price : Option Int
deriving DecidableEq, Repr

/-- A document dict built by `extract_documents`. -/
structure Document where
  name : String
  url : String
  type : Option String
deriving DecidableEq, Repr

/-- The `purchase_data` dict assembled in the route body (lines 132-138). -/
structure PurchaseData where
  subject : String
  b2b_id : Option String
  lots : List Lot
  documents : List Document
  deadline : Option String
deriving DecidableEq, Repr

/-- The payload posted to `POST /purchases` (lines 55-62). -/
structure B2BPayload where
  name : String
  b2b_id : Option String
  lots : List Lot
  documents : List Document
  deadline : Option String
  status : String
deriving DecidableEq, Repr

/-- Python `"lot" in field_id`: substring containment on character lists. -/
def subIn (pat : List Char) : List Char → Bool
  | [] => pat.isEmpty
  | c :: t => pat.isPrefixOf (c :: t) || subIn pat t

/-- Python `pat in s` for strings. -/
def strIn (pat s : String) : Bool := subIn pat.toList s.toList

/-- `PyrusB2BBot.extract_lots`: one lot (name from `value`, optional
`quantity`/`price` via `.get`) appended per field whose `id` contains
`"lot"`, in field order (lines 84-95). -/
def extract_lots (p : PyrusTask) : List Lot :=
  p.fields.foldl
    (fun lots field =>
      if strIn "lot" field.id then lots ++ [⟨field.value, field.quantity, field.price⟩]
      else lots)
    []

/-- `PyrusB2BBot.extract_documents`: one document per attachment, in order,
with `type` optional via `.get` (lines 97-107). -/
def extract_documents (p : PyrusTask) : List Document :=
  p.attachments.foldl (fun docs a => docs ++ [⟨a.name, a.url, a.type⟩]) []

/-- Oracle for the outbound HTTP world: statuses and bodies of each remote
endpoint the bot calls. -/
structure World where
  checkStatus : String → Nat
  findTask : String → Option Nat
  taskStatus : Nat → Nat
  task : Nat → PyrusTask
  createStatus : B2BPayload → Nat
  createId : B2BPayload → String
  createRespBody : B2BPayload → String

/-- `PyrusB2BBot.check_purchase_in_b2b`: `GET /purchases/{id}` and
`return response.status_code == 200` (lines 45-51). -/
def check_purchase_in_b2b (w : World) (purchase_id : String) : Bool :=
  w.checkStatus purchase_id == 200

/-- `PyrusB2BBot.get_pyrus_purchase`: returns the task on 200, raises
`Exception(f"Ошибка получения задачи Pyrus: {status}")` otherwise
(lines 34-43). -/
def get_pyrus_purchase (w : World) (task_id : Nat) : Except String PyrusTask :=
  if w.taskStatus task_id = 200 then .ok (w.task task_id)
  else .error ("Ошибка получения задачи Pyrus: " ++ toString (w.taskStatus task_id))

/-- The payload dict built inside `create_purchase_in_b2b` (lines 55-62):
`status` is fixed to `"active"`. -/
def b2bPayload (d : PurchaseData) : B2BPayload :=
  ⟨d.subject, d.b2b_id, d.lots, d.documents, d.deadline, "active"⟩

/-- `PyrusB2BBot.create_purchase_in_b2b`: posts the payload; returns the new
id on 201, raises `Exception(f"Ошибка создания закупки в B2B: {status}")`
otherwise — the message carries the status code only, not the response body
(lines 53-71). -/
def create_purchase_in_b2b (w : World) (d : PurchaseData) : Except String String :=
  let payload := b2bPayload d
  if w.createStatus payload = 201 then .ok (w.createId payload)
  else .error ("Ошибка создания закупки в B2B: " ++ toString (w.createStatus payload))

/-- Modelled from the spec: `_find_task_by_purchase_id` is called at line 125
of `bot_pyrus_b2b.py` but is not defined anywhere in the source file. §4.4
gives its contract: `findTaskByPurchaseId(purchaseId) -> taskId | NotFound`,
querying the source system for a task whose custom field equals the given
purchase id, with zero matches resolving to `NotFound` (here `none`). -/
def find_task_by_purchase_id (w : World) (purchase_id : String) : Option Nat :=
  w.findTask purchase_id

/-- The `purchase_data` dict assembled from a fetched Pyrus task in the
route body (lines 132-138). -/
def purchaseDataOf (p : PyrusTask) : PurchaseData :=
  ⟨p.subject, p.b2b_id, extract_lots p, extract_documents p, p.deadline⟩

/-- An inbound request: raw body bytes and the optional
`X-Pyrus-Signature` header. -/
structure RequestModel where
  body : List Nat
  signature : Option String
deriving DecidableEq, Repr

/-- A JSON response body produced by the route. -/
inductive RespBody where
  | alreadyExists (purchase_id : String)
  | created (purchase_id : String)
  | err (msg : String)
deriving DecidableEq, Repr

/-- Outcome of one route invocation: HTTP status, JSON body, and the number
of `POST /purchases` creation calls the invocation issued. -/
structure RouteResult where
  status : Nat
  body : RespBody
  createCalls : Nat
deriving DecidableEq, Repr

/-- The route handler `create_b2b_purchase` for `POST /create-b2b/<purchase_id>`
(lines 110-147): verify signature (401 on failure), existence check (200
`already_exists`), reverse lookup (404 when falsy — Python `if not task_id`
is true for both `None` and `0`), read the Pyrus task, build `purchase_data`,
create in B2B (201 `created`); any exception is caught and returned as a 500
`{"error": str(e)}` response. -/
def create_b2b_purchase (secret : String) (w : World) (purchase_id : String)
    (req : RequestModel) : RouteResult :=
  if verify_webhook secret req.body req.signature = false then
    ⟨401, .err "Invalid signature", 0⟩
  else if check_purchase_in_b2b w purchase_id then
    ⟨200, .alreadyExists purchase_id, 0⟩
  else
    match find_task_by_purchase_id w purchase_id with
    | none => ⟨404, .err ("Задача с purchase_id=" ++ purchase_id ++ " не найдена в Pyrus"), 0⟩
    | some task_id =>
      if task_id = 0 then
        ⟨404, .err ("Задача с purchase_id=" ++ purchase_id ++ " не найдена в Pyrus"), 0⟩
      else
        match get_pyrus_purchase w task_id with
        | .error e => ⟨500, .err e, 0⟩
        | .ok p =>
          match create_purchase_in_b2b w (purchaseDataOf p) with
          | .error e => ⟨500, .err e, 1⟩
          | .ok newId => ⟨201, .created newId, 1⟩

/-- The configuration state built by `PyrusB2BBot.__init__` (lines 13-24):
each option read with `os.getenv` (which yields `None`, not an error, when
the variable is absent), plus the `Authorization` header f-string, in which
an absent key renders as the string `"None"`. -/
structure BotConfig where
  pyrus_api_key : Option String
  pyrus_form_id : Option String
  pyrus_base_url : Option String
  b2b_url : Option String
  b2b_auth : Option String × Option String
  authHeader : String
deriving DecidableEq, Repr

/-- Python `f"{x}"` on an optional string: `None` renders as `"None"`. -/
def pyStr (o : Option String) : String :=
  match o with
  | none => "None"
  | some s => s

/-- `PyrusB2BBot.__init__` as a total function of the environment: it never
raises, whatever options are absent. Note the shared webhook secret is not
read here at all. -/
def botInit (env : String → Option String) : BotConfig :=
  { pyrus_api_key := env "PYRUS_API_KEY"
    pyrus_form_id := env "PYRUS_FORM_ID"
    pyrus_base_url := env "PYRUS_BASE_URL"
    b2b_url := env "B2B_CENTER_URL"
    b2b_auth := (env "B2B_CENTER_USERNAME", env "B2B_CENTER_PASSWORD")
    authHeader := "Bearer " ++ pyStr (env "PYRUS_API_KEY") }

/-! ## Helper lemmas -/

/-- Each byte produced by `beBytes` is below 256. -/
theorem beBytes_lt (k : Nat) : ∀ (n : Nat), ∀ x ∈ beBytes k n, x < 256 := by
  induction k with
  | zero => intro n x hx; simp [beBytes] at hx
  | succ k ih =>
    intro n x hx
    simp only [beBytes, List.mem_cons] at hx
    rcases hx with h | h
    · subst h; exact Nat.mod_lt _ (by omega)
    · exact ih n x h

/-- Each byte of a SHA-1 digest is below 256. -/
theorem sha1Bytes_lt (msg : List Nat) : ∀ x ∈ sha1Bytes msg, x < 256 := by
  intro x hx
  simp only [sha1Bytes, List.mem_append] at hx
  rcases hx with (((h | h) | h) | h) | h <;> exact beBytes_lt 4 _ x h

/-- Each byte of an HMAC-SHA1 digest is below 256. -/
theorem hmacSha1_lt (key msg : List Nat) : ∀ x ∈ hmacSha1 key msg, x < 256 := by
  intro x hx
  simp only [hmacSha1] at hx
  exact sha1Bytes_lt _ x hx

/-- The ASCII-lowercase map fixes every hex character of a nibble. -/
theorem hexChar_lower_fix (n : Nat) (h : n < 16) :
    (if 65 ≤ (hexChar n).toNat ∧ (hexChar n).toNat ≤ 90
      then Char.ofNat ((hexChar n).toNat + 32) else hexChar n) = hexChar n := by
  interval_cases n <;> decide

/-- `str.lower()` fixes a hex digest of genuine bytes: the digest consists
only of the characters `0-9a-f`. -/
theorem pyLower_hexdigest (bs : List Nat) (hb : ∀ x ∈ bs, x < 256) :
    pyLower (hexdigest bs) = hexdigest bs := by
  simp only [pyLower, hexdigest, String.toList]
  congr 1
  induction bs with
  | nil => simp
  | cons b t ih =>
    have hb0 : b < 256 := hb b (by simp)
    have h1 : b / 16 < 16 := by omega
    have h2 : b % 16 < 16 := by omega
    simp only [List.flatMap_cons, List.map_append, List.map_cons, List.map_nil]
    rw [hexChar_lower_fix _ h1, hexChar_lower_fix _ h2,
      ih (fun x hx => hb x (by simp [hx]))]

/-- A left fold appending a singleton per selected element is
`filter` + `map`. -/
theorem foldl_if_append {α β : Type} (q : α → Bool) (m : α → β) :
    ∀ (l : List α) (acc : List β),
      l.foldl (fun a x => if q x then a ++ [m x] else a) acc
        = acc ++ (l.filter q).map m := by
  intro l
  induction l with
  | nil => intro acc; simp
  | cons x t ih =>
    intro acc
    by_cases hq : q x <;> simp [List.filter_cons, hq, ih]

/-- A left fold appending a singleton per element is `map`. -/
theorem foldl_append_map {α β : Type} (m : α → β) :
    ∀ (l : List α) (acc : List β),
      l.foldl (fun a x => a ++ [m x]) acc = acc ++ l.map m := by
  intro l
  induction l with
  | nil => intro acc; simp
  | cons x t ih => intro acc; simp [ih]

/-! ## Claim theorems -/

/-- C2: the signature verifier `_is_signature_correct` returns true iff the
provided signature `g` equals the lowercase hex digest of HMAC-SHA1 keyed by
the secret `s` over the body `b`, compared case-insensitively (via
`g.lower()`); and it returns false whenever the secret or body it is given
produces a digest different from the one of the signed secret and body. -/
theorem signature_correct_spec (s : String) (b : List Nat) (g : String) :
    (is_signature_correct b s g = true
      ↔ pyLower g = hexdigest (hmacSha1 (strEncode s) b))
    ∧ (∀ (s2 : String) (b2 : List Nat),
        hexdigest (hmacSha1 (strEncode s2) b2) ≠ hexdigest (hmacSha1 (strEncode s) b) →
        is_signature_correct b2 s2 (hexdigest (hmacSha1 (strEncode s) b)) = false) := by
  constructor
  · simp only [is_signature_correct, beq_iff_eq]
    exact eq_comm
  · intro s2 b2 hne
    simp only [is_signature_correct]
    rw [pyLower_hexdigest _ (hmacSha1_lt _ _)]
    exact beq_eq_false_iff_ne.mpr hne

set_option maxRecDepth 100000 in
/-- Witness for C2 at secret `"key"`, body `[97, 98, 99]` (`"abc"`), the
genuine signature, and the mutated body `[97, 98, 100]`. -/
theorem signature_correct_spec_witness :
    is_signature_correct [97, 98, 99] "key"
      (hexdigest (hmacSha1 (strEncode "key") [97, 98, 99])) = true
    ∧ is_signature_correct [97, 98, 100] "key"
      (hexdigest (hmacSha1 (strEncode "key") [97, 98, 99])) = false := by
  have h := signature_correct_spec "key" [97, 98, 99]
    (hexdigest (hmacSha1 (strEncode "key") [97, 98, 99]))
  exact ⟨h.1.mpr (by decide), h.2 "key" [97, 98, 100] (by decide)⟩

/-- C3: the verifier returns false (it is a total function — it never
throws) when the `X-Pyrus-Signature` header is absent, and the route then
responds 401 `{"error": "Invalid signature"}` with no creation call — the
missing header takes the verification-failure branch, not the generic
500 failure path. -/
theorem signature_missing_header (secret : String) (w : World) (pid : String)
    (body : List Nat) :
    verify_webhook secret body none = false
    ∧ create_b2b_purchase secret w pid ⟨body, none⟩
      = ⟨401, .err "Invalid signature", 0⟩ := by
  refine ⟨rfl, ?_⟩
  simp [create_b2b_purchase, verify_webhook]

/-- C5: `check_purchase_in_b2b` returns true iff the target system's
existence endpoint answers 200 (the success status per §6's "200/non-200
existence signal"), and every non-200 status uniformly yields false. -/
theorem check_purchase_success_iff (w : World) (pid : String) :
    (check_purchase_in_b2b w pid = true ↔ w.checkStatus pid = 200)
    ∧ (check_purchase_in_b2b w pid = false ↔ w.checkStatus pid ≠ 200) := by
  constructor <;> simp [check_purchase_in_b2b]

/-- C1: for every verified request whose purchase id the target system
reports as existing (status 200 on the existence check), the route
terminates 200 `already_exists` with zero creation calls; two sequential
invocations, with the existence check answering 200 on each, both yield
`already_exists` and make no creation call at all. -/
theorem route_already_exists_idempotent (secret : String) (w1 w2 : World)
    (pid : String) (req1 req2 : RequestModel)
    (hv1 : verify_webhook secret req1.body req1.signature = true)
    (hv2 : verify_webhook secret req2.body req2.signature = true)
    (hx1 : w1.checkStatus pid = 200) (hx2 : w2.checkStatus pid = 200) :
    create_b2b_purchase secret w1 pid req1 = ⟨200, .alreadyExists pid, 0⟩
    ∧ create_b2b_purchase secret w2 pid req2 = ⟨200, .alreadyExists pid, 0⟩ := by
  constructor <;>
    simp [create_b2b_purchase, check_purchase_in_b2b, hv1, hv2, hx1, hx2]

/-- A world in which every purchase already exists in B2B-Center. -/
def worldExisting : World :=
  ⟨fun _ => 200, fun _ => none, fun _ => 200, fun _ => ⟨"", none, [], [], none⟩,
    fun _ => 201, fun _ => "B2B-1", fun _ => ""⟩

set_option maxRecDepth 100000 in
/-- Witness for C1: secret `"s"`, body `[97]`, the genuine signature, and a
world whose existence check answers 200, invoked twice. -/
theorem route_already_exists_idempotent_witness :
    create_b2b_purchase "s" worldExisting "P-1"
      ⟨[97], some (hexdigest (hmacSha1 (strEncode "s") [97]))⟩
      = ⟨200, .alreadyExists "P-1", 0⟩
    ∧ create_b2b_purchase "s" worldExisting "P-1"
      ⟨[97], some (hexdigest (hmacSha1 (strEncode "s") [97]))⟩
      = ⟨200, .alreadyExists "P-1", 0⟩ :=
  route_already_exists_idempotent "s" worldExisting worldExisting "P-1"
    ⟨[97], some (hexdigest (hmacSha1 (strEncode "s") [97]))⟩
    ⟨[97], some (hexdigest (hmacSha1 (strEncode "s") [97]))⟩
    (by decide) (by decide) rfl rfl

/-- C4: for every verified request whose purchase id is absent in the
target system (existence check not 200) and whose reverse lookup finds no
task, the route terminates 404 with an error body and zero creation calls. -/
theorem route_reverse_lookup_miss (secret : String) (w : World) (pid : String)
    (req : RequestModel)
    (hv : verify_webhook secret req.body req.signature = true)
    (hx : w.checkStatus pid ≠ 200)
    (hf : w.findTask pid = none) :
    create_b2b_purchase secret w pid req
      = ⟨404, .err ("Задача с purchase_id=" ++ pid ++ " не найдена в Pyrus"), 0⟩ := by
  simp [create_b2b_purchase, check_purchase_in_b2b, find_task_by_purchase_id,
    hv, hx, hf]

/-- A world in which no purchase exists and the reverse lookup never finds
a task. -/
def worldLookupMiss : World :=
  ⟨fun _ => 404, fun _ => none, fun _ => 200, fun _ => ⟨"", none, [], [], none⟩,
    fun _ => 201, fun _ => "B2B-1", fun _ => ""⟩

set_option maxRecDepth 100000 in
/-- Witness for C4: secret `"s"`, body `[98]`, the genuine signature, and a
world whose existence check answers 404 and whose lookup finds nothing. -/
theorem route_reverse_lookup_miss_witness :
    create_b2b_purchase "s" worldLookupMiss "P-9"
      ⟨[98], some (hexdigest (hmacSha1 (strEncode "s") [98]))⟩
      = ⟨404, .err ("Задача с purchase_id=" ++ "P-9" ++ " не найдена в Pyrus"), 0⟩ :=
  route_reverse_lookup_miss "s" worldLookupMiss "P-9"
    ⟨[98], some (hexdigest (hmacSha1 (strEncode "s") [98]))⟩
    (by decide) (by decide) rfl

/-- C6: `extract_lots` returns exactly the fields whose id contains the
substring `"lot"`, one lot each (name from the field value, optional
quantity and price), in field order; on
`[{id:"lot_a"}, {id:"x"}, {id:"lot_b"}]` it returns the two lots
`lot_a, lot_b` in that order. -/
theorem extract_lots_order (p : PyrusTask) :
    extract_lots p
      = ((p.fields.filter fun f => strIn "lot" f.id).map
          fun f => ⟨f.value, f.quantity, f.price⟩)
    ∧ extract_lots
        ⟨"", none, [⟨"lot_a", "A", none, none⟩, ⟨"x", "X", none, none⟩,
          ⟨"lot_b", "B", none, none⟩], [], none⟩
      = [⟨"A", none, none⟩, ⟨"B", none, none⟩] := by
  refine ⟨?_, by decide⟩
  simpa using foldl_if_append (fun f : PyrusField => strIn "lot" f.id)
    (fun f => (⟨f.value, f.quantity, f.price⟩ : Lot)) p.fields []

/-- C7: `extract_documents` maps each attachment 1:1 to a document in the
original order, and an attachment with a missing `type` is accepted,
its type becoming `none`. -/
theorem extract_documents_map (p : PyrusTask) :
    extract_documents p
      = (p.attachments.map fun a => ⟨a.name, a.url, a.type⟩)
    ∧ (extract_documents p).length = p.attachments.length
    ∧ extract_documents
        ⟨"", none, [], [⟨"d1", "u1", none⟩, ⟨"d2", "u2", some "pdf"⟩], none⟩
      = [⟨"d1", "u1", none⟩, ⟨"d2", "u2", some "pdf"⟩] := by
  have h : extract_documents p
      = (p.attachments.map fun a => ⟨a.name, a.url, a.type⟩) := by
    simpa using foldl_append_map
      (fun a : Attachment => (⟨a.name, a.url, a.type⟩ : Document)) p.attachments []
  exact ⟨h, by rw [h]; simp, by decide⟩

/-- C8: on the create path (verified, absent in B2B, task found and truthy,
Pyrus read answers 200, creation answers 201), the payload posted to the
target system carries the source subject as `name`, the extracted lots and
documents, the optional correlation id and deadline, and `status` fixed to
`"active"`; the route returns 201 `{"status": "created"}` with the new
target id from exactly one creation call. -/
theorem route_create_payload (secret : String) (w : World) (pid : String)
    (req : RequestModel) (tid : Nat) (p : PyrusTask)
    (hv : verify_webhook secret req.body req.signature = true)
    (hx : w.checkStatus pid ≠ 200)
    (hf : w.findTask pid = some tid) (ht0 : tid ≠ 0)
    (hts : w.taskStatus tid = 200) (htask : w.task tid = p)
    (hc : w.createStatus (b2bPayload (purchaseDataOf p)) = 201) :
    b2bPayload (purchaseDataOf p)
      = ⟨p.subject, p.b2b_id, extract_lots p, extract_documents p, p.deadline, "active"⟩
    ∧ create_b2b_purchase secret w pid req
      = ⟨201, .created (w.createId (b2bPayload (purchaseDataOf p))), 1⟩ := by
  refine ⟨rfl, ?_⟩
  simp [create_b2b_purchase, check_purchase_in_b2b, find_task_by_purchase_id,
    get_pyrus_purchase, create_purchase_in_b2b, hv, hx, hf, ht0, hts, htask, hc]

/-- The end-to-end scenario of §8: purchase absent, task 174 with subject
"Office chairs", one lot field, two attachments, deadline 2024-12-01. -/
def taskChairs : PyrusTask :=
  ⟨"Office chairs", some "P-100",
    [⟨"lot_1", "Chairs", some 10, some 500⟩],
    [⟨"spec.pdf", "http://p/1", some "pdf"⟩, ⟨"photo.jpg", "http://p/2", none⟩],
    some "2024-12-01"⟩

/-- A world realizing the §8 end-to-end creation scenario. -/
def worldCreate : World :=
  ⟨fun _ => 404, fun _ => some 174, fun _ => 200, fun _ => taskChairs,
    fun _ => 201, fun _ => "B2B-NEW", fun _ => ""⟩

set_option maxRecDepth 100000 in
/-- Witness for C8 at the §8 scenario. -/
theorem route_create_payload_witness :
    b2bPayload (purchaseDataOf taskChairs)
      = ⟨taskChairs.subject, taskChairs.b2b_id, extract_lots taskChairs,
          extract_documents taskChairs, taskChairs.deadline, "active"⟩
    ∧ create_b2b_purchase "s" worldCreate "P-100"
      ⟨[99], some (hexdigest (hmacSha1 (strEncode "s") [99]))⟩
      = ⟨201, .created (worldCreate.createId (b2bPayload (purchaseDataOf taskChairs))), 1⟩ :=
  route_create_payload "s" worldCreate "P-100"
    ⟨[99], some (hexdigest (hmacSha1 (strEncode "s") [99]))⟩
    174 taskChairs (by decide) (by decide) rfl (by decide) rfl rfl rfl

/-- Two worlds for C9, identical except for the body of the rejected
creation response. -/
def worldRejectA : World :=
  ⟨fun _ => 404, fun _ => some 174, fun _ => 200, fun _ => taskChairs,
    fun _ => 400, fun _ => "", fun _ => "quota exceeded"⟩

/-- Same as `worldRejectA` with a different creation response body. -/
def worldRejectB : World :=
  ⟨fun _ => 404, fun _ => some 174, fun _ => 200, fun _ => taskChairs,
    fun _ => 400, fun _ => "", fun _ => "invalid lot"⟩

/-- C9 counterexample: the creation failure raised by
`create_purchase_in_b2b` carries the response status only — two rejected
creations with status 400 but different response bodies raise the very same
error, so the error does not carry the response body. -/
theorem creation_error_ignores_body :
    worldRejectA.createRespBody (b2bPayload (purchaseDataOf taskChairs))
      = "quota exceeded"
    ∧ worldRejectB.createRespBody (b2bPayload (purchaseDataOf taskChairs))
      = "invalid lot"
    ∧ create_purchase_in_b2b worldRejectA (purchaseDataOf taskChairs)
      = .error "Ошибка создания закупки в B2B: 400"
    ∧ create_purchase_in_b2b worldRejectB (purchaseDataOf taskChairs)
      = .error "Ошибка создания закупки в B2B: 400" := by
  refine ⟨rfl, rfl, ?_, ?_⟩ <;> rfl

/-- C9 (amended): on a non-2xx creation response, `create_purchase_in_b2b`
fails with an error carrying the response status (but not the response
body), and the route catches it and reports a structured 500
`{"error": message}` result instead of an unhandled fault. -/
theorem creation_rejected_caught (secret : String) (w : World) (pid : String)
    (req : RequestModel) (tid : Nat)
    (hv : verify_webhook secret req.body req.signature = true)
    (hx : w.checkStatus pid ≠ 200)
    (hf : w.findTask pid = some tid) (ht0 : tid ≠ 0)
    (hts : w.taskStatus tid = 200)
    (hc : ¬ (200 ≤ w.createStatus (b2bPayload (purchaseDataOf (w.task tid)))
        ∧ w.createStatus (b2bPayload (purchaseDataOf (w.task tid))) < 300)) :
    create_purchase_in_b2b w (purchaseDataOf (w.task tid))
      = .error ("Ошибка создания закупки в B2B: "
          ++ toString (w.createStatus (b2bPayload (purchaseDataOf (w.task tid)))))
    ∧ create_b2b_purchase secret w pid req
      = ⟨500, .err ("Ошибка создания закупки в B2B: "
          ++ toString (w.createStatus (b2bPayload (purchaseDataOf (w.task tid))))), 1⟩ := by
  have h201 : w.createStatus (b2bPayload (purchaseDataOf (w.task tid))) ≠ 201 := by
    intro h; exact hc (by omega)
  constructor
  · simp [create_purchase_in_b2b, h201]
  · simp [create_b2b_purchase, check_purchase_in_b2b, find_task_by_purchase_id,
      get_pyrus_purchase, create_purchase_in_b2b, hv, hx, hf, ht0, hts, h201]

set_option maxRecDepth 100000 in
/-- Witness for C9 (amended) at the 400-rejected creation world. -/
theorem creation_rejected_caught_witness :
    create_purchase_in_b2b worldRejectA (purchaseDataOf (worldRejectA.task 174))
      = .error ("Ошибка создания закупки в B2B: "
          ++ toString (worldRejectA.createStatus
              (b2bPayload (purchaseDataOf (worldRejectA.task 174)))))
    ∧ create_b2b_purchase "s" worldRejectA "P-100"
      ⟨[99], some (hexdigest (hmacSha1 (strEncode "s") [99]))⟩
      = ⟨500, .err ("Ошибка создания закупки в B2B: "
          ++ toString (worldRejectA.createStatus
              (b2bPayload (purchaseDataOf (worldRejectA.task 174))))), 1⟩ :=
  creation_rejected_caught "s" worldRejectA "P-100"
    ⟨[99], some (hexdigest (hmacSha1 (strEncode "s") [99]))⟩
    174 (by decide) (by decide) rfl (by decide) rfl (by decide)

/-- C10 counterexample: with every environment variable absent,
`__init__` completes successfully — it does not fail fast — yielding a
configuration with every option `None` and the malformed authorization
header `"Bearer None"`. -/
theorem init_succeeds_absent_env :
    botInit (fun _ => none)
      = ⟨none, none, none, none, (none, none), "Bearer None"⟩ := rfl

/-- C10 (amended): `__init__` reads six options via `os.getenv` and never
fails, whatever is absent: an absent option is stored as `None` (rendering
as the string `"None"` inside the authorization header), so misconfiguration
surfaces later as malformed requests, not at startup; the shared webhook
secret is not read at startup at all. -/
theorem init_reads_env_total (env : String → Option String) :
    (botInit env).pyrus_api_key = env "PYRUS_API_KEY"
    ∧ (botInit env).pyrus_form_id = env "PYRUS_FORM_ID"
    ∧ (botInit env).pyrus_base_url = env "PYRUS_BASE_URL"
    ∧ (botInit env).b2b_url = env "B2B_CENTER_URL"
    ∧ (botInit env).b2b_auth = (env "B2B_CENTER_USERNAME", env "B2B_CENTER_PASSWORD")
    ∧ (botInit env).authHeader = "Bearer " ++ pyStr (env "PYRUS_API_KEY") :=
  ⟨rfl, rfl, rfl, rfl, rfl, rfl⟩

